import Mathlib

/-!
# Verification of the Easy EXE compatibility / dependency-installation engine

Shallow embedding of the decision and installation logic of
`easy_exe_gui.py` (classes `DependencyInstallThread`, `EasyEXEGUI`,
`DependencyDialog`, `UnknownProgramDialog`, `AlternativeDialog`,
`WarningDialog`), with theorems settling the specification claims.

Python dictionaries are embedded as association lists with distinct keys
(lookup takes the first match), Qt signals become explicit event lists,
and the Qt event loop is replaced by an explicit oracle giving the
dialog-exec outcome and the user's selections.
-/

set_option autoImplicit false
set_option linter.unusedVariables false

namespace EasyExe

/-! ## SafetyGate: `DependencyDialog.can_auto_install` -/

/-- The hard-coded allow-list from `DependencyDialog.can_auto_install`
(`safe_commands = ['sudo apt install', 'sudo pacman -S', 'flatpak install']`). -/
def safe_commands : List String :=
  ["sudo apt install", "sudo pacman -S", "flatpak install"]

/-- Python `command.startswith(safe)` on character lists. -/
def strStarts (command safe : String) : Bool :=
  safe.data.isPrefixOf command.data

/-- Embeds `DependencyDialog.can_auto_install`:
`any(command.startswith(safe) for safe in safe_commands)`. -/
def can_auto_install (command : String) : Bool :=
  safe_commands.any (fun safe => strStarts command safe)

/-- Python `needle in haystack` (substring test) on character lists:
some tail of `haystack` starts with `needle`. -/
def strContainsTok (haystack needle : String) : Bool :=
  (List.range (haystack.data.length + 1)).any
    (fun i => needle.data.isPrefixOf (haystack.data.drop i))

/-! ## InstallExecutor: `DependencyInstallThread` -/

/-- The ASCII characters Python's `str.split()` (no argument) treats as
whitespace. -/
def pyWhitespace (c : Char) : Bool :=
  c = ' ' || c = '\t' || c = '\n' || c = '\r' || c = '\x0b' || c = '\x0c'

/-- Helper for `str.split()`; `acc` holds the current token's characters
in reverse. -/
def pySplitAux : List Char → List Char → List String
  | [], acc => if acc.isEmpty then [] else [String.mk acc.reverse]
  | c :: cs, acc =>
    if pyWhitespace c then
      if acc.isEmpty then pySplitAux cs []
      else String.mk acc.reverse :: pySplitAux cs []
    else pySplitAux cs (c :: acc)

/-- Python `str.split()` with no argument: split on runs of whitespace,
discarding empty tokens. Used as `self.command.split()`. -/
def pySplit (s : String) : List String :=
  pySplitAux s.data []

/-- A request to spawn a child process, as issued by `subprocess.run`: the
argument vector and whether a shell interprets the command
(`subprocess.run` on an argument list never uses a shell). -/
structure SpawnRequest where
  argv : List String
  useShell : Bool
  deriving DecidableEq, Repr

/-- What became of the spawned process: it ran and exited with a code, or
spawning itself raised an exception. -/
inductive ProcResult where
  | exited (code : Nat)
  | spawnError (msg : String)
  deriving DecidableEq, Repr

/-- A signal emission of `DependencyInstallThread`: `progress_update(str)`
or `installation_complete(bool, str)`. -/
inductive InstallEvent where
  | progress (msg : String)
  | complete (success : Bool) (msg : String)
  deriving DecidableEq, Repr

/-- Embeds `DependencyInstallThread.run`. Emits
`progress_update(f"Installing {package_name}...")`, then calls
`subprocess.run(self.command.split(), capture_output=True, text=True,
check=True)` — one child process, no shell — and emits exactly one
`installation_complete`: `(True, ...)` on exit code 0,
`(False, "Installation failed: ...")` on `CalledProcessError` (non-zero
exit under `check=True`), `(False, "Error: ...")` on any other exception
(spawn failure). Returns the spawn requests issued and the signals
emitted, each in order; `exec` maps the spawn request to the operating
system's answer. -/
def threadRun (command package_name : String) (exec : SpawnRequest → ProcResult) :
    List SpawnRequest × List InstallEvent :=
  let req : SpawnRequest := ⟨pySplit command, false⟩
  let events :=
    match exec req with
    | ProcResult.exited 0 =>
        [InstallEvent.complete true (package_name ++ " installed successfully!")]
    | ProcResult.exited (code + 1) =>
        [InstallEvent.complete false
          ("Installation failed: Command returned non-zero exit status " ++
            toString (code + 1) ++ ".")]
    | ProcResult.spawnError msg =>
        [InstallEvent.complete false ("Error: " ++ msg)]
  ([req], InstallEvent.progress ("Installing " ++ package_name ++ "...") :: events)

/-! ## `DependencyDialog` install-job state -/

/-- The part of `self.install_thread` the guard reads: the worker's
constructor arguments and `isRunning()`. -/
structure InstallThread where
  command : String
  package_name : String
  running : Bool
  deriving DecidableEq, Repr

/-- The mutable state of `DependencyDialog` that `install_dependency`
touches: `self.install_thread` (initially `None`). -/
structure DepDialogState where
  install_thread : Option InstallThread
  deriving DecidableEq, Repr

/-- Side effects of `DependencyDialog.install_dependency`: showing the
modal progress dialog and starting a new worker thread. -/
inductive DepEffect where
  | showProgress (label : String)
  | startThread (command package_name : String)
  deriving DecidableEq, Repr

/-- Embeds `DependencyDialog.install_dependency`. Early-returns, changing
nothing, when `self.install_thread and self.install_thread.isRunning()`;
otherwise shows the progress dialog and starts a new
`DependencyInstallThread`. -/
def install_dependency (st : DepDialogState) (command package_name : String) :
    DepDialogState × List DepEffect :=
  match st.install_thread with
  | some t =>
    if t.running then (st, [])
    else
      (⟨some ⟨command, package_name, true⟩⟩,
       [DepEffect.showProgress ("Installing " ++ package_name ++ "..."),
        DepEffect.startThread command package_name])
  | none =>
      (⟨some ⟨command, package_name, true⟩⟩,
       [DepEffect.showProgress ("Installing " ++ package_name ++ "..."),
        DepEffect.startThread command package_name])

/-! ## Dependency command resolution -/

/-- Python `dict.get(key, default)` over an association list with distinct
keys. -/
def dictGet (m : List (String × String)) (key : String) (dflt : String) : String :=
  match m.find? (fun p => p.1 == key) with
  | some p => p.2
  | none => dflt

/-- A dependency's info dict: `description`, `commands`
(PlatformId → CommandString) and `benefits`. -/
structure DepInfo where
  description : String
  commands : List (String × String)
  benefits : List String
  deriving Repr

/-- Command resolution in `create_dependency_frame`:
`commands.get(self.distro, commands.get("unknown", f"# Please install {dep_name}"))`. -/
def resolveInstallCmd (dep_name : String) (commands : List (String × String))
    (distro : String) : String :=
  dictGet commands distro (dictGet commands "unknown" ("# Please install " ++ dep_name))

/-- Command resolution in `get_terminal_instructions`:
`commands.get(self.distro, commands.get("unknown", f"# Install {dep_name}"))`. -/
def resolveTerminalCmd (dep_name : String) (commands : List (String × String))
    (distro : String) : String :=
  dictGet commands distro (dictGet commands "unknown" ("# Install " ++ dep_name))

/-! ## `DependencyDialog` buttons and `EasyEXEGUI` entry points -/

/-- Result of `QDialog.exec()`. -/
inductive DialogCode where
  | accepted
  | rejected
  deriving DecidableEq, Repr

/-- The bottom action button `DependencyDialog.setup_ui` creates: in
required mode a single "Exit - Install Dependencies First" button wired to
`self.reject`; otherwise a single "Continue Without Enhancements" button
wired to `self.accept`. -/
inductive DepButton where
  | exitInstallFirst
  | continueWithout
  deriving DecidableEq, Repr

/-- The action buttons created by `setup_ui`, by `self.required`. -/
def dialogActionButtons (required : Bool) : List DepButton :=
  if required then [DepButton.exitInstallFirst] else [DepButton.continueWithout]

/-- The `exec()` outcome produced by pressing an action button. -/
def buttonResult : DepButton → DialogCode
  | DepButton.exitInstallFirst => DialogCode.rejected
  | DepButton.continueWithout => DialogCode.accepted

/-- Whether `create_dependency_frame` adds a one-click "Install" button
for a dependency: `if not self.required and self.can_auto_install(install_cmd)`. -/
def installButtonOffered (required : Bool) (install_cmd : String) : Bool :=
  !required && can_auto_install install_cmd

/-! The `EasyEXEGUI` entry points. The Qt event loop is replaced by an
oracle: `execResult` is what `dialog.exec()` returns and the further
arguments are what the user chose inside the dialog. When the GUI is
unavailable each wrapper returns its fixed default before any dialog is
constructed, so the result ignores the oracle. -/

/-- Embeds `EasyEXEGUI.show_dependency_dialog`:
`dialog.exec() == QDialog.DialogCode.Accepted`, or `False` headless. -/
def show_dependency_dialog (guiAvailable : Bool)
    (missing_deps : List (String × DepInfo)) (distro : String) (required : Bool)
    (execResult : DialogCode) : Bool :=
  if guiAvailable then execResult == DialogCode.accepted else false

/-- Embeds `EasyEXEGUI.show_unknown_program_dialog`; `dialogChoice` is
`dialog.get_choice()` after `exec`. -/
def show_unknown_program_dialog (guiAvailable : Bool)
    (exe_path : String) (pe_info : List (String × String))
    (execResult : DialogCode) (dialogChoice : String) : Bool × String :=
  if guiAvailable then
    if execResult == DialogCode.accepted then (true, dialogChoice) else (false, "cancel")
  else (false, "fallback")

/-- Embeds `EasyEXEGUI.show_alternative_dialog`. -/
def show_alternative_dialog (guiAvailable : Bool)
    (program_config : List (String × String))
    (execResult : DialogCode) (dialogChoice : String) : Bool × String :=
  if guiAvailable then
    if execResult == DialogCode.accepted then (true, dialogChoice) else (false, "continue")
  else (false, "continue")

/-- Embeds `EasyEXEGUI.show_warning_dialog`; returns `(continue, disable_future)`
where `disable_future` is `dialog.should_disable_warnings()` whatever
`exec` returned. -/
def show_warning_dialog (guiAvailable : Bool)
    (warning_type program_name : String)
    (execResult : DialogCode) (disableChecked : Bool) : Bool × Bool :=
  if guiAvailable then
    if execResult == DialogCode.accepted then (true, disableChecked)
    else (false, disableChecked)
  else (true, false)

/-! ## `AlternativeDialog` -/

/-- Side effects of the `AlternativeDialog` handlers: the preference
mutation `self.easy_exe.state["user_preferences"]["show_alternative_suggestions"] = False`,
the durable `self.easy_exe.save_state()`, and closing the dialog via
`accept`/`reject`. -/
inductive AltEffect where
  | setPref (key : String) (value : Bool)
  | saveState
  | acceptDialog
  | rejectDialog
  deriving DecidableEq, Repr

/-- The `AlternativeDialog` state its handlers read and write:
`self.choice` (initially `"continue"`) and the "Don't show again"
checkbox. -/
structure AltDialogState where
  choice : String
  disable_checked : Bool
  deriving DecidableEq, Repr

/-- Embeds `AlternativeDialog.set_choice`: records the choice, persists the
suppression when the checkbox is checked, then accepts the dialog. -/
def alt_set_choice (st : AltDialogState) (choice : String) :
    AltDialogState × List AltEffect :=
  ({ st with choice := choice },
   if st.disable_checked then
     [AltEffect.setPref "show_alternative_suggestions" false, AltEffect.saveState,
      AltEffect.acceptDialog]
   else [AltEffect.acceptDialog])

/-- A user resolution of `AlternativeDialog`: one of its four buttons. -/
inductive AltEvent where
  | pressInstall
  | pressContinue
  | pressMoreInfo
  | pressCancel
  deriving DecidableEq, Repr

/-- The wiring in `AlternativeDialog.setup_ui`: the install, continue and
more-info buttons go through `set_choice` (with `"install"`, `"continue"`,
`"browse"`); Cancel is wired straight to `self.reject`. -/
def altHandleEvent (st : AltDialogState) : AltEvent → AltDialogState × List AltEffect
  | AltEvent.pressInstall => alt_set_choice st "install"
  | AltEvent.pressContinue => alt_set_choice st "continue"
  | AltEvent.pressMoreInfo => alt_set_choice st "browse"
  | AltEvent.pressCancel => (st, [AltEffect.rejectDialog])

/-- An effect trace persists the alternative-suggestion suppression when it
both writes the preference and durably saves it. -/
def persistsSuppression (effs : List AltEffect) : Bool :=
  decide (AltEffect.setPref "show_alternative_suggestions" false ∈ effs ∧
    AltEffect.saveState ∈ effs)

/-! ## `WarningDialog` -/

/-- A parsed piece of a warning message template: literal text or the
`{game_name}` field. `str.format(game_name=...)` substitutes the program
name for each field occurrence. -/
inductive TmplPiece where
  | lit (s : String)
  | gameNameField
  deriving DecidableEq, Repr

/-- Python `message_template.format(game_name=self.program_name)` on a parsed
template. -/
def renderTemplate (tmpl : List TmplPiece) (program_name : String) : String :=
  tmpl.foldr
    (fun p acc =>
      (match p with
       | TmplPiece.lit s => s
       | TmplPiece.gameNameField => program_name) ++ acc) ""

/-- One entry of `easy_exe.messages`: a warning's message template and its
instruction list. -/
structure WarningMsgEntry where
  message : List TmplPiece
  instructions : List String
  deriving Repr

/-- The message `WarningDialog.setup_ui` shows:
`self.easy_exe.messages.get(self.warning_type, {}).get("message", "")`
rendered with `game_name=self.program_name`. -/
def warningDialogMessage (messages : List (String × WarningMsgEntry))
    (warning_type program_name : String) : String :=
  renderTemplate
    (match messages.find? (fun p => p.1 == warning_type) with
     | some p => p.2.message
     | none => [])
    program_name

/-- Modelled from the spec: the warning-gate caller lives in
`easy_exe.py`, which is not under `src/`; per the spec it persists the
`"<warningKind>_warnings"` suppression exactly when the returned
suppress-future flag is set, regardless of proceed/cancel. The returned
list is the key-value pairs durably written. -/
def gateWarningPersistedKeys (warning_type : String) (suppressFlag : Bool) :
    List (String × Bool) :=
  if suppressFlag then [(warning_type ++ "_warnings", true)] else []

/-! ## `UnknownProgramDialog` -/

/-- The dialog state: `self.choice`. -/
structure UnknownDialogState where
  choice : String
  deriving DecidableEq, Repr

/-- Embeds `UnknownProgramDialog.__init__`: `self.choice = "game"` and the Game
radio is pre-checked. Every construction starts here; the dialog receives
no handle to persisted state (its constructor takes only `exe_path` and
`pe_info`). -/
def unknownInit : UnknownDialogState := ⟨"game"⟩

/-- Embeds `UnknownProgramDialog.set_choice`: `if choice: self.choice = choice`
(`None` and the empty string are falsy and leave the choice unchanged). -/
def unknown_set_choice (st : UnknownDialogState) (choice : Option String) :
    UnknownDialogState :=
  match choice with
  | some s => if s == "" then st else ⟨s⟩
  | none => st

/-- A user selection among the two radio buttons. -/
inductive UnknownEvent where
  | selectGame
  | selectApp
  deriving DecidableEq, Repr

/-- Selecting a radio fires `toggled` on both buttons: the deselected one
calls `set_choice(None)` (ignored) and the selected one calls `set_choice`
with its value (`"game"` or `"app"`). -/
def unknownStep (st : UnknownDialogState) : UnknownEvent → UnknownDialogState
  | UnknownEvent.selectGame => unknown_set_choice (unknown_set_choice st none) (some "game")
  | UnknownEvent.selectApp => unknown_set_choice (unknown_set_choice st none) (some "app")

/-- One full invocation of the dialog: fresh construction, then the user's
radio selections in order; `get_choice` reads the final `self.choice`. -/
def runUnknownDialog (events : List UnknownEvent) : UnknownDialogState :=
  events.foldl unknownStep unknownInit

/-- A dialog invocation in the presence of the persisted preference store:
`UnknownProgramDialog` is constructed without any reference to `easy_exe`
(its constructor takes only `exe_path` and `pe_info`) and its handlers
touch only `self.choice`, so an invocation passes the store through
unchanged — the classification decision is never persisted. -/
def runUnknownDialogFrom (prefs : List (String × Bool))
    (events : List UnknownEvent) : List (String × Bool) × UnknownDialogState :=
  (prefs, runUnknownDialog events)

/-! ## Sanity checks on the embedding -/

example : can_auto_install "sudo apt install wine" = true := by decide
example : can_auto_install "rm -rf tmp" = false := by decide
example : strContainsTok "a && b" "&&" = true := by decide
example : strContainsTok "a ; b" "&&" = false := by decide
example : pySplit "sudo apt install wine" = ["sudo", "apt", "install", "wine"] := by decide
example : pySplit "  a  b " = ["a", "b"] := by decide
example : pySplit "" = [] := by decide

/-! ## Helper lemmas -/

/-- A string append whose left part has a non-empty character list is not
the empty string. -/
theorem strAppend_ne_empty (a b : String) (h : a.data ≠ []) : a ++ b ≠ "" := by
  intro hab
  have hd : (a ++ b).data = ([] : List Char) := by rw [hab]
  rw [String.data_append] at hd
  exact h (List.append_eq_nil.mp hd).1

/-- Every token produced by `pySplitAux` from a whitespace-free
accumulator is non-empty and contains no whitespace character. -/
theorem pySplitAux_tokens (cs : List Char) :
    ∀ acc : List Char, (∀ ch ∈ acc, pyWhitespace ch = false) →
      ∀ tok ∈ pySplitAux cs acc,
        tok.data ≠ [] ∧ ∀ ch ∈ tok.data, pyWhitespace ch = false := by
  induction cs with
  | nil =>
    intro acc hacc tok htok
    cases acc with
    | nil => simp [pySplitAux] at htok
    | cons a as =>
      simp [pySplitAux] at htok
      subst htok
      refine ⟨by simp, ?_⟩
      intro ch hch
      refine hacc ch (List.mem_reverse.mp ?_)
      simpa using hch
  | cons c cs ih =>
    intro acc hacc tok htok
    cases hw : pyWhitespace c with
    | true =>
      cases acc with
      | nil =>
        simp [pySplitAux, hw] at htok
        exact ih [] (by simp) tok htok
      | cons a as =>
        simp [pySplitAux, hw] at htok
        rcases htok with heq | hmem
        · subst heq
          refine ⟨by simp, ?_⟩
          intro ch hch
          refine hacc ch (List.mem_reverse.mp ?_)
          simpa using hch
        · exact ih [] (by simp) tok hmem
    | false =>
      simp only [pySplitAux, hw, if_neg] at htok
      refine ih (c :: acc) ?_ tok (by simpa using htok)
      intro ch hch
      rcases List.mem_cons.mp hch with rfl | hch
      · exact hw
      · exact hacc ch hch

/-! ## Claim theorems -/

/-- C1, counterexample to the claim as stated: this command starts with the
allowed APT prefix and contains the shell metacharacter `&&`, yet
`can_auto_install` returns `true` — the gate performs no metacharacter
check, so "for every command containing '&&' it returns false" fails. -/
theorem C1_counterexample :
    strContainsTok "sudo apt install wine && rm -rf tmp" "&&" = true ∧
    can_auto_install "sudo apt install wine && rm -rf tmp" = true := by
  exact ⟨by decide, by decide⟩

/-- C1 (amended): `can_auto_install` returns true iff the command starts
with one of the three hard-coded allow-list prefixes; it inspects nothing
else, in particular no shell metacharacters. -/
theorem C1_gate_iff_allowed (c : String) :
    can_auto_install c = true ↔ ∃ p ∈ safe_commands, p.data <+: c.data := by
  simp [can_auto_install, strStarts, List.any_eq_true, List.isPrefixOf_iff_prefix]

/-- C1 witness: the amended characterisation at a concrete allowed command. -/
theorem C1_witness : can_auto_install "sudo apt install wine" = true :=
  (C1_gate_iff_allowed "sudo apt install wine").mpr
    ⟨"sudo apt install", by decide, ⟨" wine".data, by decide⟩⟩

/-- C2: calling `install_dependency` while the current install thread is
running changes nothing — the dialog state (and hence the running job's
thread) is untouched and no effect is produced: no progress dialog, no new
thread, no new process. -/
theorem C2_second_start_noop (st : DepDialogState) (t : InstallThread)
    (command package_name : String)
    (h : st.install_thread = some t) (hr : t.running = true) :
    install_dependency st command package_name = (st, []) := by
  simp [install_dependency, h, hr]

/-- C2 witness: a concrete dialog state with a running job rejects a second
start request with no side effect. -/
theorem C2_witness :
    install_dependency ⟨some ⟨"sudo apt install wine", "wine", true⟩⟩
        "flatpak install vlc" "vlc"
      = (⟨some ⟨"sudo apt install wine", "wine", true⟩⟩, []) :=
  C2_second_start_noop _ ⟨"sudo apt install wine", "wine", true⟩ _ _ rfl rfl

/-- C3: one run of the install worker emits first the progress notification
`"Installing <packageName>..."` and then exactly one terminal notification,
with `success = true` exactly when the spawned process exits with code 0;
nothing follows the terminal notification. -/
theorem C3_worker_events (command package_name : String)
    (exec : SpawnRequest → ProcResult) :
    ∃ s msg,
      (threadRun command package_name exec).2 =
        [InstallEvent.progress ("Installing " ++ package_name ++ "..."),
         InstallEvent.complete s msg] ∧
      (s = true ↔ exec ⟨pySplit command, false⟩ = ProcResult.exited 0) := by
  cases hres : exec ⟨pySplit command, false⟩ with
  | exited code =>
    cases code with
    | zero =>
      exact ⟨true, package_name ++ " installed successfully!",
        by simp [threadRun, hres], by simp [hres]⟩
    | succ n =>
      exact ⟨false, "Installation failed: Command returned non-zero exit status " ++
          toString (n + 1) ++ ".",
        by simp [threadRun, hres], by simp [hres]⟩
  | spawnError m =>
    exact ⟨false, "Error: " ++ m, by simp [threadRun, hres], by simp [hres]⟩

/-- C4: in required mode no one-click install affordance exists for any
command, the only action button is the exit button wired to `reject`, and
pressing it makes `show_dependency_dialog` return `false` (a Decline). -/
theorem C4_required_mode_declines (install_cmd distro : String)
    (missing_deps : List (String × DepInfo)) :
    installButtonOffered true install_cmd = false ∧
    dialogActionButtons true = [DepButton.exitInstallFirst] ∧
    buttonResult DepButton.exitInstallFirst = DialogCode.rejected ∧
    show_dependency_dialog true missing_deps distro true
      (buttonResult DepButton.exitInstallFirst) = false := by
  exact ⟨by simp [installButtonOffered], rfl, rfl, rfl⟩

/-- C5: with no GUI available, every interaction entry point returns its
fixed deterministic default whatever the dialog oracle would have said:
the dependency dialog declines (`false`) for required and enhancement
cases alike, the unknown-program dialog returns `(false, "fallback")`, the
alternative dialog returns `(false, "continue")` and the warning dialog
returns `(true, false)`. -/
theorem C5_headless_defaults (missing_deps : List (String × DepInfo))
    (distro exe_path : String) (required : Bool)
    (pe_info program_config : List (String × String))
    (warning_type program_name dialogChoice : String)
    (execResult : DialogCode) (disableChecked : Bool) :
    show_dependency_dialog false missing_deps distro required execResult = false ∧
    show_unknown_program_dialog false exe_path pe_info execResult dialogChoice
      = (false, "fallback") ∧
    show_alternative_dialog false program_config execResult dialogChoice
      = (false, "continue") ∧
    show_warning_dialog false warning_type program_name execResult disableChecked
      = (true, false) :=
  ⟨rfl, rfl, rfl, rfl⟩

/-! ## Remaining claim theorems -/

/-- C6, counterexample to "resolution never returns empty" as universally
stated: a `DependencySpec` whose entry for the target platform is the
empty string resolves to the empty string. -/
theorem C6_counterexample :
    resolveInstallCmd "wine" [("ubuntu", "")] "ubuntu" = "" := by decide

/-- C6 (amended): resolution returns the spec's entry for the platform if
present, otherwise the `"unknown"` fallback entry if present, otherwise a
non-empty placeholder instructing manual installation; it is total (never
fails the evaluation) and non-empty whenever the spec's command entries
are themselves non-empty. -/
theorem C6_resolution_fallbacks (dep_name : String)
    (commands : List (String × String)) (distro : String) :
    (∀ v, commands.find? (fun p => p.1 == distro) = some v →
      resolveInstallCmd dep_name commands distro = v.2 ∧
      resolveTerminalCmd dep_name commands distro = v.2) ∧
    (commands.find? (fun p => p.1 == distro) = none →
      ∀ v, commands.find? (fun p => p.1 == "unknown") = some v →
        resolveInstallCmd dep_name commands distro = v.2 ∧
        resolveTerminalCmd dep_name commands distro = v.2) ∧
    (commands.find? (fun p => p.1 == distro) = none →
      commands.find? (fun p => p.1 == "unknown") = none →
        resolveInstallCmd dep_name commands distro = "# Please install " ++ dep_name ∧
        resolveTerminalCmd dep_name commands distro = "# Install " ++ dep_name) ∧
    ("# Please install " ++ dep_name ≠ "" ∧ "# Install " ++ dep_name ≠ "") ∧
    ((∀ p ∈ commands, p.2 ≠ "") → resolveInstallCmd dep_name commands distro ≠ "") := by
  refine ⟨?_, ?_, ?_, ?_, ?_⟩
  · intro v hv
    constructor <;> simp [resolveInstallCmd, resolveTerminalCmd, dictGet, hv]
  · intro h1 v hv
    constructor <;> simp [resolveInstallCmd, resolveTerminalCmd, dictGet, h1, hv]
  · intro h1 h2
    constructor <;> simp [resolveInstallCmd, resolveTerminalCmd, dictGet, h1, h2]
  · exact ⟨strAppend_ne_empty _ _ (by decide), strAppend_ne_empty _ _ (by decide)⟩
  · intro hall
    cases hfd : commands.find? (fun p => p.1 == distro) with
    | some v =>
      simp [resolveInstallCmd, dictGet, hfd]
      exact hall v (List.mem_of_find?_eq_some hfd)
    | none =>
      cases hfu : commands.find? (fun p => p.1 == "unknown") with
      | some v =>
        simp [resolveInstallCmd, dictGet, hfd, hfu]
        exact hall v (List.mem_of_find?_eq_some hfu)
      | none =>
        simp [resolveInstallCmd, dictGet, hfd, hfu]
        exact strAppend_ne_empty _ _ (by decide)

/-- C6 witness: the amended claim at a concrete one-entry spec. -/
theorem C6_witness :
    resolveInstallCmd "wine" [("ubuntu", "sudo apt install wine")] "ubuntu" ≠ "" :=
  (C6_resolution_fallbacks "wine" [("ubuntu", "sudo apt install wine")] "ubuntu").2.2.2.2
    (by decide)

/-- C7: the alternative-suggestion suppression is persisted (preference
write plus durable save) iff the "don't show again" checkbox is checked
and the resolving button is not Cancel; when it is persisted, the write
and the save precede the dialog-closing accept. Cancel never writes, even
with the checkbox checked. -/
theorem C7_alt_persistence (st : AltDialogState) (e : AltEvent) :
    (persistsSuppression (altHandleEvent st e).2 = true ↔
      (st.disable_checked = true ∧ e ≠ AltEvent.pressCancel)) ∧
    (persistsSuppression (altHandleEvent st e).2 = true →
      (altHandleEvent st e).2 =
        [AltEffect.setPref "show_alternative_suggestions" false, AltEffect.saveState,
         AltEffect.acceptDialog]) := by
  obtain ⟨choice, dchecked⟩ := st
  cases dchecked <;> cases e <;>
    simp [altHandleEvent, alt_set_choice, persistsSuppression]

/-- C7 witness: install chosen with the checkbox checked persists the
suppression. -/
theorem C7_witness :
    persistsSuppression (altHandleEvent ⟨"continue", true⟩ AltEvent.pressInstall).2 = true :=
  ((C7_alt_persistence ⟨"continue", true⟩ AltEvent.pressInstall).1).mpr
    ⟨rfl, by decide⟩

/-- C8: the warning message is the warning kind's template with the
program name substituted for the single `game_name` field; the call
reports the user's proceed/cancel choice together with the suppress flag,
the flag exactly as the user set it regardless of proceed/cancel; and
(modelled from the spec, the caller living in `easy_exe.py` outside
`src/`) the `"<warningKind>_warnings"` suppression is persisted exactly
when the flag is set. -/
theorem C8_warning_gate (pre post name warning_type : String)
    (instructions : List String) (execResult : DialogCode) (disableChecked : Bool) :
    warningDialogMessage
        [(warning_type,
          ⟨[TmplPiece.lit pre, TmplPiece.gameNameField, TmplPiece.lit post],
            instructions⟩)]
        warning_type name = pre ++ name ++ post ∧
    (show_warning_dialog true warning_type name execResult disableChecked).2
      = disableChecked ∧
    ((show_warning_dialog true warning_type name execResult disableChecked).1 = true ↔
      execResult = DialogCode.accepted) ∧
    ((warning_type ++ "_warnings", true) ∈
        gateWarningPersistedKeys warning_type disableChecked ↔
      disableChecked = true) := by
  refine ⟨?_, ?_, ?_, ?_⟩
  · simp [warningDialogMessage, renderTemplate, String.append_assoc, String.append_empty]
  · cases execResult <;> simp [show_warning_dialog]
  · cases execResult <;> simp [show_warning_dialog]
  · cases disableChecked <;> simp [gateWarningPersistedKeys]

/-- C8 witness: the template `"{game_name} uses DRM"` renders as
`"Foo uses DRM"` for program name `"Foo"`. -/
theorem C8_witness :
    warningDialogMessage
        [("drm", ⟨[TmplPiece.lit "", TmplPiece.gameNameField, TmplPiece.lit " uses DRM"],
          ["Use offline mode"]⟩)]
        "drm" "Foo" = "Foo uses DRM" := by
  have h := (C8_warning_gate "" " uses DRM" "Foo" "drm" ["Use offline mode"]
    DialogCode.accepted true).1
  rw [h]
  decide

/-- C9: the unknown-program classification defaults to `"game"` (fresh
dialog state and the empty-interaction run both give `"game"`), an
explicit selection always overrides the default (the last selection
decides, Application giving `"app"`), and the decision is never persisted:
an invocation passes the preference store through unchanged and every
invocation starts again from the `"game"` default. -/
theorem C9_unknown_default_game (prefs : List (String × Bool))
    (events : List UnknownEvent) :
    unknownInit.choice = "game" ∧
    (runUnknownDialog []).choice = "game" ∧
    (∀ es, runUnknownDialog (es ++ [UnknownEvent.selectApp]) = ⟨"app"⟩) ∧
    (∀ es, runUnknownDialog (es ++ [UnknownEvent.selectGame]) = ⟨"game"⟩) ∧
    runUnknownDialogFrom prefs events = (prefs, runUnknownDialog events) := by
  refine ⟨rfl, rfl, ?_, ?_, rfl⟩
  · intro es
    simp [runUnknownDialog, List.foldl_append, unknownStep, unknown_set_choice]
  · intro es
    simp [runUnknownDialog, List.foldl_append, unknownStep, unknown_set_choice]

/-- C9 witness: selecting Application yields `"app"`. -/
theorem C9_witness : runUnknownDialog [UnknownEvent.selectApp] = ⟨"app"⟩ :=
  ((C9_unknown_default_game [] []).2.2.1) []

/-- C10: one run of the install worker issues exactly one spawn request,
never through a shell, whose argument vector is the whitespace-split of
the command string; every argv token is non-empty and whitespace-free, so
shell metacharacters inside the command become literal argv tokens — as
the concrete split of a command containing `&&` shows. -/
theorem C10_single_process_no_shell (command package_name : String)
    (exec : SpawnRequest → ProcResult) :
    (threadRun command package_name exec).1 = [⟨pySplit command, false⟩] ∧
    (threadRun command package_name exec).1.length = 1 ∧
    (∀ req ∈ (threadRun command package_name exec).1, req.useShell = false) ∧
    (∀ tok ∈ pySplit command,
      tok.data ≠ [] ∧ ∀ ch ∈ tok.data, pyWhitespace ch = false) ∧
    pySplit "sudo apt install wine && rm -rf tmp" =
      ["sudo", "apt", "install", "wine", "&&", "rm", "-rf", "tmp"] := by
  refine ⟨rfl, rfl, ?_, ?_, by decide⟩
  · intro req hreq
    simp [threadRun] at hreq
    simp [hreq]
  · exact pySplitAux_tokens command.data [] (by simp)

/-- C10 witness: the worker's single spawn request for a command containing
`&&`, with the metacharacter as a literal argv token and no shell. -/
theorem C10_witness :
    (threadRun "sudo apt install wine && rm -rf tmp" "wine"
        (fun _ => ProcResult.exited 0)).1 =
      [⟨["sudo", "apt", "install", "wine", "&&", "rm", "-rf", "tmp"], false⟩] := by
  have h := (C10_single_process_no_shell "sudo apt install wine && rm -rf tmp" "wine"
    (fun _ => ProcResult.exited 0)).1
  rw [h]
  decide

end EasyExe
